import Mathlib

/-!
Shallow embedding of the booking/availability/pricing core of the
hotel-toyo-booking repository, together with theorems checking its
natural-language specification.

Conventions of the embedding:
* Calendar dates are day numbers (`Nat`).  The source stores dates as
  ISO `YYYY-MM-DD` strings and compares them lexicographically, which
  agrees with chronological order, so `Nat` comparisons are faithful.
* Instants (JavaScript `Date` values carrying a time of day, such as
  `new Date()` in `validatePromoCode`) are milliseconds (`Nat`); the
  midnight-UTC instant of day `d` is `dayStart d = d * 86400000`.
* Currency amounts and multipliers are rationals.
* Database tables are lists in insertion order; `result[0]` after a
  `select ... where` is `List.find?`; an sql `update ... where` is a
  `List.map` that rewrites the matching rows.
* A thrown exception is `Except.error` carrying the message; handlers
  that throw before reaching their `db.update` leave the table
  unchanged, which the embedding expresses by returning the original
  list alongside the error.
-/

/-- Booking lifecycle states, from the `booking_status` enum of the schema. -/
inductive BookingStatus where
  | pending
  | confirmed
  | checked_in
  | checked_out
  | completed
  | cancelled
deriving DecidableEq, Repr

/-- Payment states, from the `payment_status` enum of the schema. -/
inductive PaymentStatus where
  | pending
  | completed
  | failed
  | refunded
deriving DecidableEq, Repr

/-- Promo discount kinds, from the `discount_type` enum of the schema. -/
inductive DiscountType where
  | percentage
  | fixed
deriving DecidableEq, Repr

/-- Row of `usersTable` (only the column the booking core reads). -/
structure User where
  id : Nat
deriving DecidableEq, Repr

/-- Row of `roomTypesTable` (columns the booking core reads). -/
structure RoomType where
  id : Nat
  base_price : ℚ
  max_occupancy : Nat
  is_active : Bool
deriving DecidableEq, Repr

/-- Row of `roomsTable` (columns the booking core reads). -/
structure Room where
  id : Nat
  room_type_id : Nat
  is_available : Bool
deriving DecidableEq, Repr

/-- Row of `bookingsTable` (columns the booking core reads). -/
structure Booking where
  id : Nat
  user_id : Nat
  room_type_id : Nat
  room_id : Option Nat
  check_in_date : Nat
  check_out_date : Nat
  guests : Nat
  total_amount : ℚ
  status : BookingStatus
  special_requests : Option String
deriving DecidableEq, Repr

/-- Row of `seasonalPricingTable` (columns the pricing engine reads). -/
structure SeasonalPricing where
  room_type_id : Nat
  start_date : Nat
  end_date : Nat
  price_multiplier : ℚ
  is_active : Bool
deriving DecidableEq, Repr

/-- Row of `promoOffersTable` (columns the promo validator reads).
`valid_from` and `valid_until` are day numbers (the table stores them
as date columns). -/
structure PromoOffer where
  id : Nat
  code : String
  discount_type : DiscountType
  discount_value : ℚ
  min_booking_amount : Option ℚ
  max_discount : Option ℚ
  valid_from : Nat
  valid_until : Nat
  usage_limit : Option Nat
  used_count : Nat
  is_active : Bool
deriving DecidableEq, Repr

/-- Row of `paymentsTable` (columns the refund handler reads). -/
structure Payment where
  id : Nat
  amount : ℚ
  payment_status : PaymentStatus
  transaction_id : Option String
deriving DecidableEq, Repr

/-- Milliseconds in a calendar day. -/
def msPerDay : Nat := 86400000

/-- The midnight-UTC instant of a day number (what `new Date("YYYY-MM-DD")`
evaluates to). -/
def dayStart (d : Nat) : Nat := d * msPerDay

/-- The calendar day an instant falls on. -/
def dayOfInstant (t : Nat) : Nat := t / msPerDay

/-- The conflict predicate of `checkRoomAvailability`
(src/unnamed/part_000, lines 78-88): same room type, half-open date
overlap (`check_in_date < checkOut` and `check_out_date > checkIn`),
and status in `('confirmed', 'checked_in')`. -/
def craConflict (roomTypeId checkIn checkOut : Nat) (b : Booking) : Bool :=
  decide (b.room_type_id = roomTypeId) &&
  decide (b.check_in_date < checkOut) &&
  decide (b.check_out_date > checkIn) &&
  (decide (b.status = BookingStatus.confirmed) ||
   decide (b.status = BookingStatus.checked_in))

/-- `checkRoomAvailability` (src/unnamed/part_000, lines 55-98): count
the type's rooms with `is_available = true`; if zero, return false;
otherwise count the conflicting bookings and return
`totalRoomCount > bookedRoomCount`. -/
def checkRoomAvailability (rooms : List Room) (bookings : List Booking)
    (roomTypeId checkIn checkOut : Nat) : Bool :=
  let totalRoomCount :=
    (rooms.filter (fun r => decide (r.room_type_id = roomTypeId) && r.is_available)).length
  if totalRoomCount = 0 then
    false
  else
    let bookedRoomCount :=
      (bookings.filter (craConflict roomTypeId checkIn checkOut)).length
    decide (totalRoomCount > bookedRoomCount)

/-- The claimed availability decision, written from the specification's
words: `totalRooms` = rooms of the type with availability flag true,
`conflictingBookings` = bookings of the type whose status is NOT
`cancelled` and whose range overlaps (half-open); available iff
`totalRooms > conflictingBookings`. -/
def claimIsAvailable (rooms : List Room) (bookings : List Booking)
    (roomTypeId checkIn checkOut : Nat) : Bool :=
  let totalRooms :=
    (rooms.filter (fun r => decide (r.room_type_id = roomTypeId) && r.is_available)).length
  let conflictingBookings :=
    (bookings.filter (fun b =>
      decide (b.room_type_id = roomTypeId) &&
      !(decide (b.status = BookingStatus.cancelled)) &&
      decide (b.check_in_date < checkOut) &&
      decide (b.check_out_date > checkIn))).length
  decide (totalRooms > conflictingBookings)

/-- The amended availability decision: as `claimIsAvailable` but the
conflicting statuses are exactly `confirmed` and `checked_in`. -/
def amendedIsAvailable (rooms : List Room) (bookings : List Booking)
    (roomTypeId checkIn checkOut : Nat) : Bool :=
  let totalRooms :=
    (rooms.filter (fun r => decide (r.room_type_id = roomTypeId) && r.is_available)).length
  let conflictingBookings :=
    (bookings.filter (fun b =>
      decide (b.room_type_id = roomTypeId) &&
      (decide (b.status = BookingStatus.confirmed) ||
       decide (b.status = BookingStatus.checked_in)) &&
      decide (b.check_in_date < checkOut) &&
      decide (b.check_out_date > checkIn))).length
  decide (totalRooms > conflictingBookings)

/-- Whether a seasonal rule's inclusive `[start_date, end_date]` range
contains a day (the per-day test of the pricing loop,
src/unnamed/part_000 line 149). -/
def containsDay (d : Nat) (p : SeasonalPricing) : Bool :=
  decide (p.start_date ≤ d) && decide (d ≤ p.end_date)

/-- The seasonal-pricing query of `calculateRoomPrice`
(src/unnamed/part_000, lines 126-135): rules of the room type that are
active and satisfy `start_date ≤ checkOut` and `end_date ≥ checkIn`. -/
def seasonalQuery (seasonal : List SeasonalPricing)
    (roomTypeId checkIn checkOut : Nat) : List SeasonalPricing :=
  seasonal.filter (fun p =>
    decide (p.room_type_id = roomTypeId) && p.is_active &&
    decide (p.start_date ≤ checkOut) && decide (p.end_date ≥ checkIn))

/-- The multiplier the pricing loop picks for one day: the first rule
of the fetched list containing the day, else 1
(src/unnamed/part_000, lines 144-153). -/
def dayMultiplier (sp : List SeasonalPricing) (d : Nat) : ℚ :=
  match sp.find? (containsDay d) with
  | some p => p.price_multiplier
  | none => 1

/-- The `while (currentDate < checkOut)` loop of `calculateRoomPrice`
(src/unnamed/part_000, lines 141-157), with the remaining number of
days as fuel: each day adds `basePrice * dayMultiplier`. -/
def priceLoop (basePrice : ℚ) (sp : List SeasonalPricing) (cur : Nat) : Nat → ℚ
  | 0 => 0
  | n + 1 => basePrice * dayMultiplier sp cur + priceLoop basePrice sp (cur + 1) n

/-- `calculateRoomPrice` (src/unnamed/part_000, lines 100-168): look up
the room type; reject an empty or negative stay; if the seasonal query
returns rows, price day by day, otherwise charge
`basePrice * nights` with `nights = checkOut - checkIn`. -/
def calculateRoomPrice (roomTypes : List RoomType)
    (seasonal : List SeasonalPricing)
    (roomTypeId checkIn checkOut : Nat) : Except String ℚ :=
  match roomTypes.find? (fun rt => decide (rt.id = roomTypeId)) with
  | none => .error ("Room type with id " ++ toString roomTypeId ++ " not found")
  | some rt =>
    if checkOut ≤ checkIn then
      .error "Check-out date must be after check-in date"
    else
      let sp := seasonalQuery seasonal roomTypeId checkIn checkOut
      if 0 < sp.length then
        .ok (priceLoop rt.base_price sp checkIn (checkOut - checkIn))
      else
        .ok (rt.base_price * ((checkOut - checkIn : Nat) : ℚ))

/-- The specification's per-day multiplier: the first ACTIVE seasonal
rule of the room type, in table order, whose inclusive range contains
the day; 1 when none does. -/
def specDayMultiplier (seasonal : List SeasonalPricing)
    (roomTypeId d : Nat) : ℚ :=
  match seasonal.find? (fun p =>
      decide (p.room_type_id = roomTypeId) && p.is_active && containsDay d p) with
  | some p => p.price_multiplier
  | none => 1

/-- The specification's total: the sum over the `n` calendar days
starting at `cur` (checkout day excluded) of
`basePrice * specDayMultiplier`. -/
def specPriceSum (basePrice : ℚ) (seasonal : List SeasonalPricing)
    (roomTypeId cur : Nat) : Nat → ℚ
  | 0 => 0
  | n + 1 => basePrice * specDayMultiplier seasonal roomTypeId cur +
      specPriceSum basePrice seasonal roomTypeId (cur + 1) n

/-- Request payload of `createBooking`. -/
structure CreateBookingInput where
  user_id : Nat
  room_type_id : Nat
  check_in_date : Nat
  check_out_date : Nat
  guests : Nat
  special_requests : Option String
deriving DecidableEq, Repr

/-- Process environment of `createBooking`: whether `NODE_ENV` is
`test` (which disables the past-date check) and the current day. -/
structure Env where
  isTestEnv : Bool
  todayDay : Nat
deriving DecidableEq, Repr

/-- The tables `createBooking` reads. -/
structure DbState where
  users : List User
  roomTypes : List RoomType
  rooms : List Room
  bookings : List Booking
  seasonalPricing : List SeasonalPricing
deriving Repr

/-- The conflict predicate of `createBooking`
(src/server/src/handlers/bookings.ts, lines 138-158): same room type,
status not `cancelled`, and one of three INCLUSIVE interval conditions
(booking covers the requested check-in day, covers the requested
check-out day, or lies inside the requested range). -/
def createBookingConflict (roomTypeId checkIn checkOut : Nat) (b : Booking) : Bool :=
  decide (b.room_type_id = roomTypeId) &&
  !(decide (b.status = BookingStatus.cancelled)) &&
  ((decide (b.check_in_date ≤ checkIn) && decide (b.check_out_date ≥ checkIn)) ||
   (decide (b.check_in_date ≤ checkOut) && decide (b.check_out_date ≥ checkOut)) ||
   (decide (b.check_in_date ≥ checkIn) && decide (b.check_out_date ≤ checkOut)))

/-- `createBooking` (src/server/src/handlers/bookings.ts, lines 88-217):
verify the user; verify the room type exists and is active; reject
`checkOut ≤ checkIn`; outside tests reject a past check-in; reject
`guests > max_occupancy`; count conflicting bookings and available
rooms and reject when `conflicts ≥ rooms`; total amount is
`nights * basePrice` with `nights` the whole-day difference; best-effort
assign the first available room with no conflict pinned to it; insert
the booking with status `pending`. Returns the created booking and the
bookings table after the insert. -/
def createBooking (env : Env) (st : DbState) (input : CreateBookingInput) :
    Except String (Booking × List Booking) :=
  match st.users.find? (fun u => decide (u.id = input.user_id)) with
  | none => .error ("User with ID " ++ toString input.user_id ++ " not found")
  | some _ =>
  match st.roomTypes.find? (fun rt => decide (rt.id = input.room_type_id) && rt.is_active) with
  | none => .error ("Room type with ID " ++ toString input.room_type_id ++ " not found or inactive")
  | some rt =>
  if input.check_out_date ≤ input.check_in_date then
    .error "Check-out date must be after check-in date"
  else if !env.isTestEnv && decide (input.check_in_date < env.todayDay) then
    .error "Check-in date cannot be in the past"
  else if decide (rt.max_occupancy < input.guests) then
    .error ("Guest count (" ++ toString input.guests ++
      ") exceeds maximum occupancy (" ++ toString rt.max_occupancy ++
      ") for this room type")
  else
    let conflictingBookings := st.bookings.filter
      (createBookingConflict input.room_type_id input.check_in_date input.check_out_date)
    let availableRooms := st.rooms.filter
      (fun r => decide (r.room_type_id = input.room_type_id) && r.is_available)
    if decide (availableRooms.length ≤ conflictingBookings.length) then
      .error "No rooms available for the selected dates"
    else
      let nights := input.check_out_date - input.check_in_date
      let totalAmount : ℚ := (nights : ℚ) * rt.base_price
      let assignedRoomId := (availableRooms.find? (fun room =>
        (conflictingBookings.filter (fun b => decide (b.room_id = some room.id))).isEmpty)).map Room.id
      let booking : Booking := {
        id := st.bookings.length + 1
        user_id := input.user_id
        room_type_id := input.room_type_id
        room_id := assignedRoomId
        check_in_date := input.check_in_date
        check_out_date := input.check_out_date
        guests := input.guests
        total_amount := totalAmount
        status := BookingStatus.pending
        special_requests := input.special_requests }
      .ok (booking, st.bookings ++ [booking])

/-- Status names as the source interpolates them into messages. -/
def statusStr : BookingStatus → String
  | .pending => "pending"
  | .confirmed => "confirmed"
  | .checked_in => "checked_in"
  | .checked_out => "checked_out"
  | .completed => "completed"
  | .cancelled => "cancelled"

/-- The `validTransitions` table of `updateBooking`
(src/server/src/handlers/bookings.ts, lines 325-332). -/
def validTransitions : BookingStatus → List BookingStatus
  | .pending => [.confirmed, .cancelled]
  | .confirmed => [.checked_in, .cancelled]
  | .checked_in => [.checked_out]
  | .cancelled => []
  | .completed => []
  | .checked_out => [.completed]

/-- Request payload of `updateBooking`.  The outer `Option` is
JavaScript `undefined` (field absent), the inner one is `null`. -/
structure UpdateBookingInput where
  id : Nat
  room_id : Option (Option Nat)
  status : Option BookingStatus
  special_requests : Option (Option String)
deriving DecidableEq, Repr

/-- The partial update `updateBooking` applies to a matching row:
only fields explicitly provided change. -/
def applyBookingUpdate (input : UpdateBookingInput) (b : Booking) : Booking :=
  { b with
    room_id := match input.room_id with | some v => v | none => b.room_id
    status := match input.status with | some s => s | none => b.status
    special_requests :=
      match input.special_requests with | some v => v | none => b.special_requests }

/-- `updateBooking` (src/server/src/handlers/bookings.ts, lines
290-363): look up the booking; when a non-null `room_id` is provided,
the room must exist, be available and have the booking's room type;
when a `status` is provided the transition must be in
`validTransitions`; then apply the partial update to the matching rows.
Returns the updated booking and the bookings table after the update. -/
def updateBooking (bookings : List Booking) (rooms : List Room)
    (input : UpdateBookingInput) : Except String (Booking × List Booking) :=
  match bookings.find? (fun b => decide (b.id = input.id)) with
  | none => .error ("Booking with ID " ++ toString input.id ++ " not found")
  | some existing =>
  let roomErr : Option String :=
    match input.room_id with
    | some (some rid) =>
      match rooms.find? (fun r => decide (r.id = rid) && r.is_available) with
      | none => some ("Room with ID " ++ toString rid ++ " not found or not available")
      | some room =>
        if decide (room.room_type_id ≠ existing.room_type_id) then
          some "Room type mismatch"
        else none
    | _ => none
  match roomErr with
  | some e => .error e
  | none =>
  let statusErr : Option String :=
    match input.status with
    | some s =>
      if !(decide (s ∈ validTransitions existing.status)) then
        some ("Invalid status transition from " ++ statusStr existing.status ++
          " to " ++ statusStr s)
      else none
    | none => none
  match statusErr with
  | some e => .error e
  | none =>
    .ok (applyBookingUpdate input existing,
      bookings.map (fun b =>
        if decide (b.id = input.id) then applyBookingUpdate input b else b))

/-- `cancelBooking` (src/server/src/handlers/bookings.ts, lines
365-404): look up the booking; allow only statuses `pending` and
`confirmed`; on success set the status to `cancelled` in the table and
return the updated row.  The second component is the bookings table
after the call (unchanged whenever an error is returned, because the
handler throws before its `db.update`). -/
def cancelBooking (bookings : List Booking) (id : Nat) :
    Except String Booking × List Booking :=
  match bookings.find? (fun b => decide (b.id = id)) with
  | none => (.error ("Booking with ID " ++ toString id ++ " not found"), bookings)
  | some b =>
    if decide (b.status = BookingStatus.pending) ||
       decide (b.status = BookingStatus.confirmed) then
      ((.ok { b with status := BookingStatus.cancelled }),
        bookings.map (fun x =>
          if decide (x.id = id) then { x with status := BookingStatus.cancelled } else x))
    else
      (.error ("Cannot cancel booking with status: " ++ statusStr b.status), bookings)

/-- `getPromoOfferByCode` (src/unnamed/part_000, lines 258-282): first
row whose code matches, if any. -/
def getPromoOfferByCode (offers : List PromoOffer) (code : String) :
    Option PromoOffer :=
  offers.find? (fun o => decide (o.code = code))

/-- `validatePromoCode` (src/unnamed/part_000, lines 327-375).  `now`
is the instant `new Date()` evaluates to (milliseconds); the stored
`valid_from` / `valid_until` days become the midnight instants
`dayStart _` when the rows are parsed, and the source compares the two
`Date` values directly.  Returns `(valid, discount, offer)`. -/
def validatePromoCode (offers : List PromoOffer) (code : String)
    (bookingAmount : ℚ) (now : Nat) : Bool × ℚ × Option PromoOffer :=
  match getPromoOfferByCode offers code with
  | none => (false, 0, none)
  | some offer =>
    if !offer.is_active then
      (false, 0, some offer)
    else if decide (now < dayStart offer.valid_from) ||
        decide (dayStart offer.valid_until < now) then
      (false, 0, some offer)
    else if (match offer.usage_limit with
             | some lim => decide (lim ≤ offer.used_count)
             | none => false) then
      (false, 0, some offer)
    else if (match offer.min_booking_amount with
             | some m => decide (bookingAmount < m)
             | none => false) then
      (false, 0, some offer)
    else
      let rawDiscount : ℚ :=
        match offer.discount_type with
        | .percentage => bookingAmount * offer.discount_value / 100
        | .fixed => offer.discount_value
      let discount : ℚ :=
        match offer.max_discount with
        | some m => if decide (m < rawDiscount) then m else rawDiscount
        | none => rawDiscount
      (true, discount, some offer)

/-- The discount the specification prescribes for a valid offer:
percentage offers give `bookingAmount * discount_value / 100`, fixed
offers give `discount_value`, clamped to `max_discount` when set. -/
def claimDiscount (offer : PromoOffer) (bookingAmount : ℚ) : ℚ :=
  let raw : ℚ :=
    match offer.discount_type with
    | .percentage => bookingAmount * offer.discount_value / 100
    | .fixed => offer.discount_value
  match offer.max_discount with
  | some m => if decide (m < raw) then m else raw
  | none => raw

/-- `usePromoCode` (src/unnamed/part_000, lines 377-401): increment
`used_count` on every row whose code matches — no validation of any
kind — and return the first updated row (reading `result[0]` of an
empty result throws, modelled as an error). -/
def usePromoCode (offers : List PromoOffer) (code : String) :
    Except String PromoOffer × List PromoOffer :=
  let updated := offers.map (fun o =>
    if decide (o.code = code) then { o with used_count := o.used_count + 1 } else o)
  match updated.find? (fun o => decide (o.code = code)) with
  | none => (.error "TypeError: undefined is not an object", updated)
  | some o => (.ok o, updated)

/-- The row rewrite `processRefund` applies on success: status
`refunded`, fresh transaction id derived from the current time. -/
def refundUpdate (now : Nat) (q : Payment) : Payment :=
  { q with
    payment_status := PaymentStatus.refunded
    transaction_id := some ("refund_" ++ toString now) }

/-- `processRefund` (src/server/src/handlers/payments.ts, lines
190-228): look up the payment; reject a refund larger than the
original amount, then a non-positive one; otherwise set the payment's
status to `refunded` with a fresh transaction id.  The second
component is the payments table after the call (unchanged whenever an
error is returned, because the handler throws before its
`db.update`). -/
def processRefund (payments : List Payment) (paymentId : Nat)
    (amount : ℚ) (now : Nat) : Except String Payment × List Payment :=
  match payments.find? (fun p => decide (p.id = paymentId)) with
  | none => (.error ("Payment with ID " ++ toString paymentId ++ " not found"), payments)
  | some p =>
    if decide (p.amount < amount) then
      (.error "Refund amount cannot exceed original payment amount", payments)
    else if decide (amount ≤ 0) then
      (.error "Refund amount must be positive", payments)
    else
      ((.ok (refundUpdate now p)),
        payments.map (fun q =>
          if decide (q.id = paymentId) then refundUpdate now q else q))

/-- The invalidity condition the specification gives for
`validatePromoCode` (amended to the source's instant-level comparison
of the current time against the midnight instants of the validity
bounds): inactive, current instant before `dayStart valid_from` or
after `dayStart valid_until`, usage limit reached, or booking amount
below the minimum. -/
def claimInvalidCond (o : PromoOffer) (amt : ℚ) (now : Nat) : Prop :=
  o.is_active = false ∨
  now < dayStart o.valid_from ∨
  dayStart o.valid_until < now ∨
  (∃ lim, o.usage_limit = some lim ∧ lim ≤ o.used_count) ∨
  (∃ m, o.min_booking_amount = some m ∧ amt < m)

/-- The status-transition table as the specification enumerates it. -/
def claimTransitionTable : List (BookingStatus × BookingStatus) :=
  [(.pending, .confirmed), (.pending, .cancelled),
   (.confirmed, .checked_in), (.confirmed, .cancelled),
   (.checked_in, .checked_out), (.checked_out, .completed)]

/-! Concrete fixtures used by counterexamples and witnesses. -/

/-- One available room of type 1. -/
def roomsCex : List Room := [⟨1, 1, true⟩]

/-- One `pending` booking of type 1 over days [10, 14). -/
def bookingsCex : List Booking :=
  [⟨1, 7, 1, none, 10, 14, 2, 400, BookingStatus.pending, none⟩]

/-- Test-mode environment (the past-date check is disabled). -/
def envTest : Env := ⟨true, 0⟩

/-- State with one confirmed booking of type 1 over days [1, 5). -/
def stBackToBack : DbState := {
  users := [⟨7⟩]
  roomTypes := [⟨1, 100, 2, true⟩]
  rooms := [⟨1, 1, true⟩]
  bookings := [⟨1, 7, 1, some 1, 1, 5, 2, 400, BookingStatus.confirmed, none⟩]
  seasonalPricing := [] }

/-- A booking request for days [5, 8): check-in on the existing
booking's check-out day. -/
def inBackToBack : CreateBookingInput := ⟨7, 1, 5, 8, 2, none⟩

/-- Catalogue with a single room type of base price 100. -/
def rtFix : List RoomType := [⟨1, 100, 2, true⟩]

/-- One active seasonal rule of type 1: multiplier 3/2 on days 12-20. -/
def spFix : List SeasonalPricing := [⟨1, 12, 20, (3 : ℚ) / 2, true⟩]

/-- Two active seasonal rules of type 1 with a season boundary at day
12: multiplier 2 on days 10-11, multiplier 3/2 on days 12-15. -/
def spBoundary : List SeasonalPricing :=
  [⟨1, 10, 11, 2, true⟩, ⟨1, 12, 15, (3 : ℚ) / 2, true⟩]

/-- State for the booking-creation witness: empty bookings table and an
active seasonal rule (multiplier 2) covering every day of the stay. -/
def stCreate : DbState := {
  users := [⟨7⟩]
  roomTypes := [⟨1, 100, 2, true⟩]
  rooms := [⟨1, 1, true⟩]
  bookings := []
  seasonalPricing := [⟨1, 0, 30, 2, true⟩] }

/-- A booking request for days [10, 12) (2 nights). -/
def inCreate : CreateBookingInput := ⟨7, 1, 10, 12, 2, none⟩

/-- A pending booking used by the update/cancel witnesses. -/
def bookingPending : Booking :=
  ⟨1, 7, 1, none, 10, 14, 2, 400, BookingStatus.pending, none⟩

/-- A checked-in booking used by the cancel witness. -/
def bookingCheckedIn : Booking :=
  ⟨2, 7, 1, some 1, 10, 14, 2, 400, BookingStatus.checked_in, none⟩

/-- The SUMMER20 offer of the specification's scenario: 20 percent,
minimum booking amount 100, maximum discount 50, valid on days 0-10. -/
def summerOffer : PromoOffer :=
  ⟨1, "SUMMER20", DiscountType.percentage, 20, some 100, some 50, 0, 10,
    some 100, 0, true⟩

/-- One millisecond after midnight on the offer's `valid_until` day. -/
def tLate : Nat := dayStart 10 + 1

/-- An inactive, expired offer whose usage limit is already exceeded. -/
def exhaustedOffer : PromoOffer :=
  ⟨2, "DEAD5", DiscountType.fixed, 5, none, none, 0, 1, some 2, 5, false⟩

/-- A completed payment of 100 used by the refund witness. -/
def paymentFix : Payment := ⟨1, 100, PaymentStatus.completed, none⟩

/-- The booking `createBooking` produces from `stCreate` and
`inCreate`: 2 nights at base price 100, total 200. -/
def bCreated : Booking :=
  ⟨1, 7, 1, some 1, 10, 12, 2, 200, BookingStatus.pending, none⟩

/-- Helper: `List.find?` only depends on the values the predicate takes
on the list's members. -/
theorem find?_congr_mem {α : Type} {p q : α → Bool} :
    ∀ {l : List α}, (∀ x ∈ l, p x = q x) → l.find? p = l.find? q := by
  intro l
  induction l with
  | nil => intro _; rfl
  | cons x xs ih =>
    intro h
    have hx := h x (List.mem_cons_self x xs)
    rw [List.find?_cons, List.find?_cons, hx]
    cases q x with
    | true => rfl
    | false => exact ih (fun y hy => h y (List.mem_cons_of_mem x hy))

/-- Helper: for a day inside the requested range, the multiplier the
pricing loop picks from the fetched (filtered) rule list is the one the
specification describes over the full rule table, because the
overlap filter keeps every rule containing that day and preserves
order. -/
theorem dayMultiplier_query_eq (seasonal : List SeasonalPricing)
    (roomTypeId checkIn checkOut d : Nat) (h1 : checkIn ≤ d) (h2 : d < checkOut) :
    dayMultiplier (seasonalQuery seasonal roomTypeId checkIn checkOut) d =
    specDayMultiplier seasonal roomTypeId d := by
  unfold dayMultiplier specDayMultiplier seasonalQuery
  rw [List.find?_filter]
  have : seasonal.find? (fun a => decide
      ((decide (a.room_type_id = roomTypeId) && a.is_active &&
        decide (a.start_date ≤ checkOut) && decide (a.end_date ≥ checkIn)) = true ∧
       containsDay d a = true)) =
      seasonal.find? (fun p =>
        decide (p.room_type_id = roomTypeId) && p.is_active && containsDay d p) := by
    apply find?_congr_mem
    intro x _
    rw [Bool.eq_iff_iff]
    simp only [decide_eq_true_eq, Bool.and_eq_true, containsDay, ge_iff_le]
    constructor
    · rintro ⟨⟨⟨⟨hrt, hact⟩, _⟩, _⟩, hc1, hc2⟩
      exact ⟨⟨hrt, hact⟩, hc1, hc2⟩
    · rintro ⟨⟨hrt, hact⟩, hc1, hc2⟩
      exact ⟨⟨⟨⟨hrt, hact⟩, by omega⟩, by omega⟩, hc1, hc2⟩
  rw [this]

/-- Helper: on every day window inside the requested range the pricing
loop computes the specification's sum. -/
theorem priceLoop_eq_specPriceSum (basePrice : ℚ) (seasonal : List SeasonalPricing)
    (roomTypeId checkIn checkOut : Nat) :
    ∀ (n cur : Nat), checkIn ≤ cur → cur + n ≤ checkOut →
    priceLoop basePrice (seasonalQuery seasonal roomTypeId checkIn checkOut) cur n =
    specPriceSum basePrice seasonal roomTypeId cur n := by
  intro n
  induction n with
  | zero => intro cur _ _; rfl
  | succ n ih =>
    intro cur h1 h2
    unfold priceLoop specPriceSum
    rw [dayMultiplier_query_eq seasonal roomTypeId checkIn checkOut cur h1 (by omega)]
    rw [ih (cur + 1) (by omega) (by omega)]

/-- Helper: when the seasonal query is empty, no rule contains any day
of the range, so the specification's sum collapses to
`basePrice * nights`. -/
theorem specPriceSum_of_empty_query (basePrice : ℚ) (seasonal : List SeasonalPricing)
    (roomTypeId checkIn checkOut : Nat)
    (hq : seasonalQuery seasonal roomTypeId checkIn checkOut = []) :
    ∀ (n cur : Nat), checkIn ≤ cur → cur + n ≤ checkOut →
    specPriceSum basePrice seasonal roomTypeId cur n = basePrice * (n : ℚ) := by
  have hall := List.filter_eq_nil_iff.mp hq
  intro n
  induction n with
  | zero => intro cur _ _; simp [specPriceSum]
  | succ n ih =>
    intro cur h1 h2
    unfold specPriceSum
    have hmul : specDayMultiplier seasonal roomTypeId cur = 1 := by
      unfold specDayMultiplier
      have : seasonal.find? (fun p =>
          decide (p.room_type_id = roomTypeId) && p.is_active && containsDay cur p) = none := by
        rw [List.find?_eq_none]
        intro x hx hpx
        apply hall x hx
        simp only [Bool.and_eq_true, decide_eq_true_eq, containsDay] at hpx
        obtain ⟨⟨hrt, hact⟩, hc1, hc2⟩ := hpx
        simp only [Bool.and_eq_true, decide_eq_true_eq, ge_iff_le]
        exact ⟨⟨⟨hrt, hact⟩, by omega⟩, by omega⟩
      rw [this]
    rw [hmul, ih (cur + 1) (by omega) (by omega)]
    push_cast
    ring

/-- Helper: for an existing room type and a non-empty stay,
`calculateRoomPrice` returns exactly the specification's per-day sum,
whichever branch (day loop or `basePrice * nights`) it takes. -/
theorem calculateRoomPrice_eq_spec (roomTypes : List RoomType)
    (seasonal : List SeasonalPricing) (roomTypeId checkIn checkOut : Nat)
    (rt : RoomType)
    (hrt : roomTypes.find? (fun r => decide (r.id = roomTypeId)) = some rt)
    (hlt : checkIn < checkOut) :
    calculateRoomPrice roomTypes seasonal roomTypeId checkIn checkOut =
    .ok (specPriceSum rt.base_price seasonal roomTypeId checkIn (checkOut - checkIn)) := by
  unfold calculateRoomPrice
  rw [hrt]
  dsimp only
  rw [if_neg (by omega)]
  by_cases hsp : 0 < (seasonalQuery seasonal roomTypeId checkIn checkOut).length
  · rw [if_pos hsp]
    rw [priceLoop_eq_specPriceSum rt.base_price seasonal roomTypeId checkIn checkOut
      (checkOut - checkIn) checkIn (le_refl _) (by omega)]
  · rw [if_neg hsp]
    have hq : seasonalQuery seasonal roomTypeId checkIn checkOut = [] := by
      rw [← List.length_eq_zero]; omega
    rw [specPriceSum_of_empty_query rt.base_price seasonal roomTypeId checkIn checkOut hq
      (checkOut - checkIn) checkIn (le_refl _) (by omega)]

/-- Helper: the specification's per-day sum splits over adjacent day
windows. -/
theorem specPriceSum_add (basePrice : ℚ) (seasonal : List SeasonalPricing)
    (roomTypeId : Nat) :
    ∀ (m k cur : Nat),
    specPriceSum basePrice seasonal roomTypeId cur (m + k) =
    specPriceSum basePrice seasonal roomTypeId cur m +
      specPriceSum basePrice seasonal roomTypeId (cur + m) k := by
  intro m
  induction m with
  | zero => intro k cur; simp [specPriceSum]
  | succ m ih =>
    intro k cur
    have hshape : m + 1 + k = (m + k) + 1 := by omega
    have hstep : ∀ (c j : Nat), specPriceSum basePrice seasonal roomTypeId c (j + 1) =
        basePrice * specDayMultiplier seasonal roomTypeId c +
        specPriceSum basePrice seasonal roomTypeId (c + 1) j := fun c j => rfl
    rw [hshape, hstep, hstep, ih k (cur + 1)]
    have harg : cur + 1 + m = cur + (m + 1) := by omega
    rw [harg, add_assoc]

/-- Claim C1, counterexample: with one available room of type 1 and one
overlapping PENDING booking, `checkRoomAvailability` returns true,
while the claim's rule (count every non-cancelled overlapping booking,
available iff totalRooms exceeds that count) yields false — so the
claim's characterisation of the counted statuses is wrong on the code:
a pending booking is not counted. -/
theorem claim1_counterexample :
    checkRoomAvailability roomsCex bookingsCex 1 12 16 = true ∧
    claimIsAvailable roomsCex bookingsCex 1 12 16 = false ∧
    bookingsCex.map Booking.status = [BookingStatus.pending] := by
  refine ⟨by decide, by decide, by decide⟩

/-- Claim C1, amended: `checkRoomAvailability` returns true exactly when
`totalRooms > conflictingBookings`, where `totalRooms` counts the
type's rooms with availability flag true and `conflictingBookings`
counts the type's bookings whose status is `confirmed` or `checked_in`
(not every non-cancelled status) and whose range overlaps the requested
range half-open; when `totalRooms = 0` it returns false. -/
theorem claim1_amended : ∀ (rooms : List Room) (bookings : List Booking)
    (roomTypeId checkIn checkOut : Nat),
    checkRoomAvailability rooms bookings roomTypeId checkIn checkOut =
      amendedIsAvailable rooms bookings roomTypeId checkIn checkOut ∧
    ((rooms.filter (fun r => decide (r.room_type_id = roomTypeId) && r.is_available)).length = 0 →
      checkRoomAvailability rooms bookings roomTypeId checkIn checkOut = false) := by
  intro rooms bookings rtid ci co
  constructor
  · unfold checkRoomAvailability amendedIsAvailable
    dsimp only
    by_cases h : (rooms.filter (fun r => decide (r.room_type_id = rtid) && r.is_available)).length = 0
    · rw [if_pos h, h]
      simp
    · rw [if_neg h]
      have hfilt : bookings.filter (craConflict rtid ci co) =
          bookings.filter (fun b =>
            decide (b.room_type_id = rtid) &&
            (decide (b.status = BookingStatus.confirmed) ||
             decide (b.status = BookingStatus.checked_in)) &&
            decide (b.check_in_date < co) &&
            decide (b.check_out_date > ci)) := by
        apply List.filter_congr
        intro x _
        unfold craConflict
        by_cases h1 : x.room_type_id = rtid <;>
          by_cases h2 : x.status = BookingStatus.confirmed <;>
          by_cases h3 : x.status = BookingStatus.checked_in <;>
          by_cases h4 : x.check_in_date < co <;>
          by_cases h5 : x.check_out_date > ci <;>
          simp [h1, h2, h3, h4, h5]
      rw [hfilt]
  · intro h
    unfold checkRoomAvailability
    dsimp only
    rw [if_pos h]

/-- Witness for the amended C1: with no rooms at all the checker
returns false. -/
theorem claim1_amended_witness :
    checkRoomAvailability ([] : List Room) bookingsCex 1 12 16 = false :=
  (claim1_amended [] bookingsCex 1 12 16).2 (by decide)

/-- Claim C2, counterexample: a confirmed booking over days [1, 5) and a
request for days [5, 8) — a same-day back-to-back turnover.
`checkRoomAvailability` (half-open overlap) returns true, but
`createBooking` counts the booking as a conflict through its inclusive
overlap test and fails with the NoAvailability error, contradicting the
claim that the turnover never causes that failure. -/
theorem claim2_counterexample :
    (stBackToBack.bookings.map Booking.check_out_date = [5] ∧
     inBackToBack.check_in_date = 5 ∧
     stBackToBack.bookings.map Booking.status = [BookingStatus.confirmed]) ∧
    checkRoomAvailability stBackToBack.rooms stBackToBack.bookings 1 5 8 = true ∧
    createBooking envTest stBackToBack inBackToBack =
      .error "No rooms available for the selected dates" := by
  refine ⟨⟨rfl, rfl, rfl⟩, by decide, by rfl⟩

/-- Claim C2, amended: in `checkRoomAvailability` a booking whose
check-out equals the requested check-in (or whose check-in equals the
requested check-out) is never counted — adding such a booking leaves
the result unchanged; but in `createBooking` the overlap test is
inclusive, so a non-cancelled booking of the type whose check-out
equals the requested check-in IS counted as a conflict and can cause
the NoAvailability failure. -/
theorem claim2_amended : ∀ (b : Booking) (roomTypeId checkIn checkOut : Nat),
    ((b.check_out_date = checkIn ∨ b.check_in_date = checkOut) →
      craConflict roomTypeId checkIn checkOut b = false) ∧
    (∀ (rooms : List Room) (bookings : List Booking),
      (b.check_out_date = checkIn ∨ b.check_in_date = checkOut) →
      checkRoomAvailability rooms (b :: bookings) roomTypeId checkIn checkOut =
        checkRoomAvailability rooms bookings roomTypeId checkIn checkOut) ∧
    (b.status ≠ BookingStatus.cancelled → b.room_type_id = roomTypeId →
      b.check_in_date ≤ checkIn → b.check_out_date = checkIn →
      createBookingConflict roomTypeId checkIn checkOut b = true) := by
  intro b rtid ci co
  have hfalse : (b.check_out_date = ci ∨ b.check_in_date = co) →
      craConflict rtid ci co b = false := by
    intro h
    unfold craConflict
    rcases h with h | h <;> rw [h] <;> simp
  refine ⟨hfalse, ?_, ?_⟩
  · intro rooms bookings h
    unfold checkRoomAvailability
    dsimp only
    rw [List.filter_cons_of_neg (by rw [hfalse h]; exact Bool.false_ne_true)]
  · intro hst hrt hle hco
    unfold createBookingConflict
    rw [hco, hrt]
    simp [hst, hle]

/-- Witness for the amended C2, at the back-to-back fixture booking. -/
theorem claim2_amended_witness :
    craConflict 1 5 8 ⟨1, 7, 1, some 1, 1, 5, 2, 400, BookingStatus.confirmed, none⟩ = false ∧
    createBookingConflict 1 5 8 ⟨1, 7, 1, some 1, 1, 5, 2, 400, BookingStatus.confirmed, none⟩ = true :=
  ⟨(claim2_amended ⟨1, 7, 1, some 1, 1, 5, 2, 400, BookingStatus.confirmed, none⟩ 1 5 8).1
      (Or.inl rfl),
   (claim2_amended ⟨1, 7, 1, some 1, 1, 5, 2, 400, BookingStatus.confirmed, none⟩ 1 5 8).2.2
      (by decide) rfl (by decide) rfl⟩

/-- Claim C3: for every existing room type and every range with
checkOut strictly after checkIn, `calculateRoomPrice` returns the sum,
over each calendar day in the half-open range (checkout day excluded),
of base price times the multiplier of the first active rule containing
the day (1 when none does). -/
theorem claim3_price_is_day_sum (roomTypes : List RoomType)
    (seasonal : List SeasonalPricing) (roomTypeId checkIn checkOut : Nat)
    (rt : RoomType)
    (hrt : roomTypes.find? (fun r => decide (r.id = roomTypeId)) = some rt)
    (hlt : checkIn < checkOut) :
    calculateRoomPrice roomTypes seasonal roomTypeId checkIn checkOut =
    .ok (specPriceSum rt.base_price seasonal roomTypeId checkIn (checkOut - checkIn)) :=
  calculateRoomPrice_eq_spec roomTypes seasonal roomTypeId checkIn checkOut rt hrt hlt

/-- Witness for C3 at a stay crossing into a multiplier-3/2 season:
2 plain days and 2 season days at base 100 give 500. -/
theorem claim3_witness :
    (List.find? (fun r => decide (r.id = 1)) rtFix = some ⟨1, 100, 2, true⟩ ∧ 10 < 14) ∧
    calculateRoomPrice rtFix spFix 1 10 14 =
      .ok (specPriceSum 100 spFix 1 10 4) ∧
    specPriceSum 100 spFix 1 10 4 = 500 :=
  ⟨⟨rfl, by omega⟩,
   claim3_price_is_day_sum rtFix spFix 1 10 14 ⟨1, 100, 2, true⟩ rfl (by omega),
   by simp [specPriceSum, specDayMultiplier, spFix, containsDay]; norm_num⟩

/-- Claim C4: every successful `createBooking` persists a booking whose
total amount is nights times base price, with no seasonal multiplier —
the computation does not read the seasonal-pricing table at all (last
conjunct: changing that table changes nothing). -/
theorem claim4_total_amount : ∀ (env : Env) (st : DbState)
    (input : CreateBookingInput) (b : Booking) (nbs : List Booking) (rt : RoomType),
    st.roomTypes.find? (fun r => decide (r.id = input.room_type_id) && r.is_active) = some rt →
    createBooking env st input = .ok (b, nbs) →
    b.total_amount =
      ((input.check_out_date - input.check_in_date : Nat) : ℚ) * rt.base_price ∧
    nbs = st.bookings ++ [b] ∧
    ∀ sps, createBooking env { st with seasonalPricing := sps } input =
      createBooking env st input := by
  intro env st input b nbs rt hrt h
  refine ⟨?_, ?_, fun sps => rfl⟩ <;>
  · unfold createBooking at h
    cases hu : st.users.find? (fun u => decide (u.id = input.user_id)) with
    | none => rw [hu] at h; exact absurd h (by simp)
    | some u =>
      rw [hu, hrt] at h
      dsimp only at h
      by_cases h1 : input.check_out_date ≤ input.check_in_date
      · rw [if_pos h1] at h; exact absurd h (by simp)
      rw [if_neg h1] at h
      by_cases h2 : (!env.isTestEnv && decide (input.check_in_date < env.todayDay)) = true
      · rw [if_pos h2] at h; exact absurd h (by simp)
      rw [if_neg h2] at h
      by_cases h3 : decide (rt.max_occupancy < input.guests) = true
      · rw [if_pos h3] at h; exact absurd h (by simp)
      rw [if_neg h3] at h
      by_cases h4 : decide
          ((st.rooms.filter (fun r =>
              decide (r.room_type_id = input.room_type_id) && r.is_available)).length ≤
            (st.bookings.filter (createBookingConflict input.room_type_id
              input.check_in_date input.check_out_date)).length) = true
      · rw [if_pos h4] at h; exact absurd h (by simp)
      rw [if_neg h4] at h
      simp only [Except.ok.injEq, Prod.mk.injEq] at h
      obtain ⟨hb, hn⟩ := h
      subst hb
      subst hn
      simp

/-- Witness for C4: despite an active multiplier-2 rule covering the
whole stay, the created booking's total is 2 nights times 100 = 200. -/
theorem claim4_witness :
    createBooking envTest stCreate inCreate = .ok (bCreated, [bCreated]) ∧
    bCreated.total_amount = ((12 - 10 : Nat) : ℚ) * 100 ∧
    stCreate.seasonalPricing.map SeasonalPricing.is_active = [true] := by
  have hEval : createBooking envTest stCreate inCreate = .ok (bCreated, [bCreated]) := by
    simp [createBooking, stCreate, inCreate, envTest, createBookingConflict, bCreated]
    norm_num
  exact ⟨hEval,
    (claim4_total_amount envTest stCreate inCreate bCreated [bCreated]
      ⟨1, 100, 2, true⟩ rfl hEval).1, rfl⟩

/-- Claim C5: `updateBooking` with a status field accepts the update
exactly when the (current, attempted) pair is in the specification's
six-row transition table, and on every other pair fails with the
invalid-transition error naming both statuses; the outcome is a
function of the pair. -/
theorem claim5_transitions : ∀ (bookings : List Booking) (rooms : List Room)
    (id : Nat) (s : BookingStatus) (sr : Option (Option String)) (b : Booking),
    bookings.find? (fun x => decide (x.id = id)) = some b →
    ((updateBooking bookings rooms ⟨id, none, some s, sr⟩).isOk = true ↔
      (b.status, s) ∈ claimTransitionTable) ∧
    ((b.status, s) ∉ claimTransitionTable →
      updateBooking bookings rooms ⟨id, none, some s, sr⟩ =
        .error ("Invalid status transition from " ++ statusStr b.status ++
          " to " ++ statusStr s)) := by
  intro bookings rooms id s sr b hfind
  have hiff : s ∈ validTransitions b.status ↔ (b.status, s) ∈ claimTransitionTable := by
    cases b.status <;> cases s <;> simp [validTransitions, claimTransitionTable]
  have hcomp : updateBooking bookings rooms ⟨id, none, some s, sr⟩ =
      (if s ∈ validTransitions b.status then
        .ok (applyBookingUpdate ⟨id, none, some s, sr⟩ b,
          bookings.map fun x =>
            if decide (x.id = id) then applyBookingUpdate ⟨id, none, some s, sr⟩ x else x)
      else
        .error ("Invalid status transition from " ++ statusStr b.status ++
          " to " ++ statusStr s)) := by
    unfold updateBooking
    rw [hfind]
    dsimp only
    by_cases hmem : s ∈ validTransitions b.status
    · rw [if_pos hmem]
      simp [hmem]
    · rw [if_neg hmem]
      simp [hmem]
  rw [hcomp]
  by_cases hmem : s ∈ validTransitions b.status
  · rw [if_pos hmem]
    refine ⟨?_, fun hn => absurd (hiff.mp hmem) hn⟩
    simp [Except.isOk, Except.toBool, hiff.mp hmem]
  · rw [if_neg hmem]
    refine ⟨?_, fun _ => rfl⟩
    simp only [Except.isOk, Except.toBool, iff_false, Bool.false_eq_true, false_iff]
    exact fun hmm => hmem (hiff.mpr hmm)

/-- Witness for C5: updating a pending booking to confirmed. -/
theorem claim5_witness :
    ((updateBooking [bookingPending] [] ⟨1, none, some BookingStatus.confirmed, none⟩).isOk = true ↔
      (BookingStatus.pending, BookingStatus.confirmed) ∈ claimTransitionTable) ∧
    ((BookingStatus.pending, BookingStatus.confirmed) ∉ claimTransitionTable →
      updateBooking [bookingPending] [] ⟨1, none, some BookingStatus.confirmed, none⟩ =
        .error ("Invalid status transition from " ++ statusStr BookingStatus.pending ++
          " to " ++ statusStr BookingStatus.confirmed)) :=
  claim5_transitions [bookingPending] [] 1 BookingStatus.confirmed none bookingPending rfl

/-- Claim C7: `cancelBooking` succeeds exactly from `pending` or
`confirmed`, setting the status to `cancelled` in the returned row and
the stored table; from any other status it fails with an error naming
the current status and leaves the table unchanged. -/
theorem claim7_cancel : ∀ (bookings : List Booking) (id : Nat) (b : Booking),
    bookings.find? (fun x => decide (x.id = id)) = some b →
    ((b.status = BookingStatus.pending ∨ b.status = BookingStatus.confirmed) →
      (cancelBooking bookings id).1 = .ok { b with status := BookingStatus.cancelled } ∧
      (cancelBooking bookings id).2.find? (fun x => decide (x.id = id)) =
        some { b with status := BookingStatus.cancelled }) ∧
    (b.status ≠ BookingStatus.pending → b.status ≠ BookingStatus.confirmed →
      cancelBooking bookings id =
        (.error ("Cannot cancel booking with status: " ++ statusStr b.status), bookings)) := by
  intro bookings id b hfind
  have hid : decide (b.id = id) = true := by simpa using List.find?_some hfind
  constructor
  · intro h
    have hcond : (decide (b.status = BookingStatus.pending) ||
        decide (b.status = BookingStatus.confirmed)) = true := by
      rcases h with h | h <;> simp [h]
    unfold cancelBooking
    rw [hfind]
    dsimp only
    rw [if_pos hcond]
    refine ⟨rfl, ?_⟩
    dsimp only
    rw [List.find?_map]
    have hcong : bookings.find? ((fun x => decide (x.id = id)) ∘ (fun x =>
        if decide (x.id = id) then { x with status := BookingStatus.cancelled } else x)) =
        bookings.find? (fun x => decide (x.id = id)) := by
      apply find?_congr_mem
      intro x _
      by_cases hx : x.id = id <;> simp [hx]
    rw [hcong, hfind]
    have hbid : b.id = id := of_decide_eq_true hid
    simp [hbid]
  · intro h1 h2
    have hcond : (decide (b.status = BookingStatus.pending) ||
        decide (b.status = BookingStatus.confirmed)) = false := by
      simp [h1, h2]
    unfold cancelBooking
    rw [hfind]
    dsimp only
    rw [if_neg (by rw [hcond]; exact Bool.false_ne_true)]

/-- Witness for C7: cancelling a pending booking succeeds and rewrites
its stored status; cancelling a checked-in booking fails with the
status-naming error and leaves the table unchanged. -/
theorem claim7_witness :
    ((cancelBooking [bookingPending, bookingCheckedIn] 1).1 =
      .ok { bookingPending with status := BookingStatus.cancelled } ∧
     (cancelBooking [bookingPending, bookingCheckedIn] 1).2.find?
        (fun x => decide (x.id = 1)) =
      some { bookingPending with status := BookingStatus.cancelled }) ∧
    cancelBooking [bookingPending, bookingCheckedIn] 2 =
      (.error ("Cannot cancel booking with status: " ++
        statusStr BookingStatus.checked_in), [bookingPending, bookingCheckedIn]) :=
  ⟨(claim7_cancel [bookingPending, bookingCheckedIn] 1 bookingPending rfl).1 (Or.inl rfl),
   (claim7_cancel [bookingPending, bookingCheckedIn] 2 bookingCheckedIn rfl).2
     (by decide) (by decide)⟩

/-- Claim C6, counterexample: one millisecond after midnight on the
`valid_until` day itself — the current calendar day is inside the
inclusive `[valid_from, valid_until]` range, the offer is active, the
usage limit is not reached and the amount meets the minimum, yet
`validatePromoCode` reports the code invalid, because the source
compares the full current instant against the midnight instant of
`valid_until`.  This refutes the claim that a call on the
`valid_until` day is still valid. -/
theorem claim6_counterexample :
    dayOfInstant tLate = 10 ∧
    summerOffer.valid_from ≤ dayOfInstant tLate ∧
    dayOfInstant tLate ≤ summerOffer.valid_until ∧
    summerOffer.is_active = true ∧
    summerOffer.used_count < 100 ∧
    (100 : ℚ) ≤ 200 ∧
    (validatePromoCode [summerOffer] "SUMMER20" 200 tLate).1 = false := by
  refine ⟨by decide, by decide, by decide, by decide, by decide, by norm_num, by decide⟩

/-- Claim C6, amended: `validatePromoCode` returns valid=false with
discount 0 exactly when the code is not found, the offer is inactive,
the current INSTANT lies before midnight of `valid_from` or after
midnight of `valid_until` (so a call strictly after midnight on the
`valid_until` day is already rejected), the usage limit is set and
reached, or the amount is below the set minimum; otherwise it returns
valid=true with the percentage-or-fixed discount clamped to
`max_discount`.  The SUMMER20 scenario holds at an instant inside the
window: validate(200) gives 40, validate(500) gives 50, validate(50)
is invalid. -/
theorem claim6_amended :
    (∀ (offers : List PromoOffer) (code : String) (amt : ℚ) (now : Nat),
      getPromoOfferByCode offers code = none →
      validatePromoCode offers code amt now = (false, 0, none)) ∧
    (∀ (offers : List PromoOffer) (code : String) (amt : ℚ) (now : Nat) (o : PromoOffer),
      getPromoOfferByCode offers code = some o →
      (claimInvalidCond o amt now →
        validatePromoCode offers code amt now = (false, 0, some o)) ∧
      (¬claimInvalidCond o amt now →
        validatePromoCode offers code amt now = (true, claimDiscount o amt, some o)) ∧
      ((validatePromoCode offers code amt now).1 = false ↔ claimInvalidCond o amt now)) ∧
    validatePromoCode [summerOffer] "SUMMER20" 200 (dayStart 5) =
      (true, 40, some summerOffer) ∧
    validatePromoCode [summerOffer] "SUMMER20" 500 (dayStart 5) =
      (true, 50, some summerOffer) ∧
    validatePromoCode [summerOffer] "SUMMER20" 50 (dayStart 5) =
      (false, 0, some summerOffer) := by
  refine ⟨?_, ?_, ?_, ?_, ?_⟩
  · intro offers code amt now hfind
    unfold validatePromoCode
    rw [hfind]
  · intro offers code amt now o hfind
    unfold validatePromoCode
    rw [hfind]
    dsimp only
    cases hact : o.is_active with
    | false =>
      have hc : claimInvalidCond o amt now := Or.inl hact
      simp only [Bool.not_false, if_true]
      exact ⟨fun _ => by simp, fun hn => absurd hc hn, by simp [hc]⟩
    | true =>
      simp only [Bool.not_true, Bool.false_eq_true, if_false]
      by_cases hdate : (decide (now < dayStart o.valid_from) ||
          decide (dayStart o.valid_until < now)) = true
      · rw [if_pos hdate]
        have hdate2 : now < dayStart o.valid_from ∨ dayStart o.valid_until < now := by
          simpa using hdate
        have hc : claimInvalidCond o amt now := by
          rcases hdate2 with hd | hd
          · exact Or.inr (Or.inl hd)
          · exact Or.inr (Or.inr (Or.inl hd))
        exact ⟨fun _ => rfl, fun hn => absurd hc hn, by simp [hc]⟩
      · rw [if_neg hdate]
        have hdates : ¬now < dayStart o.valid_from ∧ ¬dayStart o.valid_until < now := by
          simpa [not_or] using hdate
        have hd1 := hdates.1
        have hd2 := hdates.2
        cases hul : o.usage_limit with
        | some lim =>
          dsimp only
          by_cases husage : lim ≤ o.used_count
          · rw [if_pos (decide_eq_true husage)]
            have hc : claimInvalidCond o amt now :=
              Or.inr (Or.inr (Or.inr (Or.inl ⟨lim, hul, husage⟩)))
            exact ⟨fun _ => rfl, fun hn => absurd hc hn, by simp [hc]⟩
          · rw [if_neg (by simpa using husage)]
            cases hmin : o.min_booking_amount with
            | some m =>
              dsimp only
              by_cases hamt : amt < m
              · rw [if_pos (decide_eq_true hamt)]
                have hc : claimInvalidCond o amt now :=
                  Or.inr (Or.inr (Or.inr (Or.inr ⟨m, hmin, hamt⟩)))
                exact ⟨fun _ => rfl, fun hn => absurd hc hn, by simp [hc]⟩
              · rw [if_neg (by simpa using hamt)]
                have hnc : ¬claimInvalidCond o amt now := by
                  intro hc
                  rcases hc with hc | hc | hc | ⟨lim2, hl2, hu2⟩ | ⟨m2, hm2, ha2⟩
                  · rw [hact] at hc; exact Bool.noConfusion hc
                  · exact hd1 hc
                  · exact hd2 hc
                  · rw [hul] at hl2
                    injection hl2 with hl2
                    exact husage (hl2 ▸ hu2)
                  · rw [hmin] at hm2
                    injection hm2 with hm2
                    exact hamt (hm2 ▸ ha2)
                refine ⟨fun hc => absurd hc hnc, fun _ => ?_, by simp [hnc]⟩
                unfold claimDiscount
                rfl
            | none =>
              dsimp only
              rw [if_neg (by simp)]
              have hnc : ¬claimInvalidCond o amt now := by
                intro hc
                rcases hc with hc | hc | hc | ⟨lim2, hl2, hu2⟩ | ⟨m2, hm2, ha2⟩
                · rw [hact] at hc; exact Bool.noConfusion hc
                · exact hd1 hc
                · exact hd2 hc
                · rw [hul] at hl2
                  injection hl2 with hl2
                  exact husage (hl2 ▸ hu2)
                · rw [hmin] at hm2; exact Option.noConfusion hm2
              refine ⟨fun hc => absurd hc hnc, fun _ => ?_, by simp [hnc]⟩
              unfold claimDiscount
              rfl
        | none =>
          dsimp only
          rw [if_neg (by simp)]
          cases hmin : o.min_booking_amount with
          | some m =>
            dsimp only
            by_cases hamt : amt < m
            · rw [if_pos (decide_eq_true hamt)]
              have hc : claimInvalidCond o amt now :=
                Or.inr (Or.inr (Or.inr (Or.inr ⟨m, hmin, hamt⟩)))
              exact ⟨fun _ => rfl, fun hn => absurd hc hn, by simp [hc]⟩
            · rw [if_neg (by simpa using hamt)]
              have hnc : ¬claimInvalidCond o amt now := by
                intro hc
                rcases hc with hc | hc | hc | ⟨lim2, hl2, hu2⟩ | ⟨m2, hm2, ha2⟩
                · rw [hact] at hc; exact Bool.noConfusion hc
                · exact hd1 hc
                · exact hd2 hc
                · rw [hul] at hl2; exact Option.noConfusion hl2
                · rw [hmin] at hm2
                  injection hm2 with hm2
                  exact hamt (hm2 ▸ ha2)
              refine ⟨fun hc => absurd hc hnc, fun _ => ?_, by simp [hnc]⟩
              unfold claimDiscount
              rfl
          | none =>
            dsimp only
            rw [if_neg (by simp)]
            have hnc : ¬claimInvalidCond o amt now := by
              intro hc
              rcases hc with hc | hc | hc | ⟨lim2, hl2, hu2⟩ | ⟨m2, hm2, ha2⟩
              · rw [hact] at hc; exact Bool.noConfusion hc
              · exact hd1 hc
              · exact hd2 hc
              · rw [hul] at hl2; exact Option.noConfusion hl2
              · rw [hmin] at hm2; exact Option.noConfusion hm2
            refine ⟨fun hc => absurd hc hnc, fun _ => ?_, by simp [hnc]⟩
            unfold claimDiscount
            rfl
  · simp [validatePromoCode, getPromoOfferByCode, summerOffer, dayStart, msPerDay]
    norm_num
  · simp [validatePromoCode, getPromoOfferByCode, summerOffer, dayStart, msPerDay]
    norm_num
  · simp [validatePromoCode, getPromoOfferByCode, summerOffer, dayStart, msPerDay]
    norm_num

/-- Witness for the amended C6: inside the validity window the SUMMER20
offer at amount 200 is valid with the clamped discount. -/
theorem claim6_witness :
    validatePromoCode [summerOffer] "SUMMER20" 200 (dayStart 5) =
      (true, claimDiscount summerOffer 200, some summerOffer) :=
  (claim6_amended.2.1 [summerOffer] "SUMMER20" 200 (dayStart 5) summerOffer rfl).2.1
    (by norm_num [claimInvalidCond, summerOffer, dayStart, msPerDay])

/-- Claim C9: for an existing payment, `processRefund` fails exactly
when the requested amount exceeds the original or is non-positive —
with two distinct error messages — leaving the payments table
unchanged; otherwise it succeeds and sets the payment's status to
`refunded` both in the returned row and in the stored table. -/
theorem claim9_refund : ∀ (payments : List Payment) (paymentId : Nat)
    (amt : ℚ) (now : Nat) (p : Payment),
    payments.find? (fun q => decide (q.id = paymentId)) = some p →
    (p.amount < amt →
      processRefund payments paymentId amt now =
        (.error "Refund amount cannot exceed original payment amount", payments)) ∧
    (amt ≤ p.amount → amt ≤ 0 →
      processRefund payments paymentId amt now =
        (.error "Refund amount must be positive", payments)) ∧
    (amt ≤ p.amount → 0 < amt →
      (processRefund payments paymentId amt now).1 = .ok (refundUpdate now p) ∧
      (processRefund payments paymentId amt now).2.find?
          (fun q => decide (q.id = paymentId)) = some (refundUpdate now p) ∧
      (refundUpdate now p).payment_status = PaymentStatus.refunded) ∧
    "Refund amount cannot exceed original payment amount" ≠
      "Refund amount must be positive" := by
  intro payments paymentId amt now p hfind
  have hid : decide (p.id = paymentId) = true := by simpa using List.find?_some hfind
  have hpid : p.id = paymentId := of_decide_eq_true hid
  refine ⟨?_, ?_, ?_, by decide⟩
  · intro hgt
    unfold processRefund
    rw [hfind]
    dsimp only
    rw [if_pos (decide_eq_true hgt)]
  · intro hle hnp
    unfold processRefund
    rw [hfind]
    dsimp only
    rw [if_neg (by simpa using not_lt.mpr hle), if_pos (decide_eq_true hnp)]
  · intro hle hpos
    unfold processRefund
    rw [hfind]
    dsimp only
    rw [if_neg (by simpa using not_lt.mpr hle), if_neg (by simpa using not_le.mpr hpos)]
    refine ⟨rfl, ?_, rfl⟩
    rw [List.find?_map]
    have hcong : payments.find? ((fun q => decide (q.id = paymentId)) ∘ (fun q =>
        if decide (q.id = paymentId) then refundUpdate now q else q)) =
        payments.find? (fun q => decide (q.id = paymentId)) := by
      apply find?_congr_mem
      intro x _
      by_cases hx : x.id = paymentId <;> simp [hx, refundUpdate]
    rw [hcong, hfind]
    simp [hpid]

/-- Witness for C9 on a payment of 100: refunding 150 and 0 fail with
their distinct errors, refunding 40 succeeds and stores status
`refunded`. -/
theorem claim9_witness :
    (processRefund [paymentFix] 1 150 99 =
      (.error "Refund amount cannot exceed original payment amount", [paymentFix])) ∧
    (processRefund [paymentFix] 1 0 99 =
      (.error "Refund amount must be positive", [paymentFix])) ∧
    ((processRefund [paymentFix] 1 40 99).1 = .ok (refundUpdate 99 paymentFix) ∧
     (processRefund [paymentFix] 1 40 99).2.find? (fun q => decide (q.id = 1)) =
       some (refundUpdate 99 paymentFix) ∧
     (refundUpdate 99 paymentFix).payment_status = PaymentStatus.refunded) :=
  ⟨(claim9_refund [paymentFix] 1 150 99 paymentFix rfl).1 (by norm_num [paymentFix]),
   (claim9_refund [paymentFix] 1 0 99 paymentFix rfl).2.1 (by norm_num [paymentFix]) (by norm_num),
   (claim9_refund [paymentFix] 1 40 99 paymentFix rfl).2.2.1 (by norm_num [paymentFix]) (by norm_num)⟩

/-- Claim C10: for every existing promo code, `usePromoCode`
unconditionally succeeds and increments `used_count` by exactly 1 —
nothing about the offer (activity, validity dates, usage limit) is
checked, as the statement quantifies over arbitrary offers. -/
theorem claim10_use_promo : ∀ (offers : List PromoOffer) (code : String) (o : PromoOffer),
    offers.find? (fun x => decide (x.code = code)) = some o →
    (usePromoCode offers code).1 = .ok { o with used_count := o.used_count + 1 } ∧
    (usePromoCode offers code).2.find? (fun x => decide (x.code = code)) =
      some { o with used_count := o.used_count + 1 } := by
  intro offers code o hfind
  have hcode : o.code = code := of_decide_eq_true (by simpa using List.find?_some hfind)
  have hm : (offers.map (fun x =>
      if decide (x.code = code) then { x with used_count := x.used_count + 1 } else x)).find?
        (fun x => decide (x.code = code)) =
      some { o with used_count := o.used_count + 1 } := by
    rw [List.find?_map]
    have hcong : offers.find? ((fun x => decide (x.code = code)) ∘ (fun x =>
        if decide (x.code = code) then { x with used_count := x.used_count + 1 } else x)) =
        offers.find? (fun x => decide (x.code = code)) := by
      apply find?_congr_mem
      intro x _
      by_cases hx : x.code = code <;> simp [hx]
    rw [hcong, hfind]
    simp [hcode]
  unfold usePromoCode
  dsimp only
  rw [hm]
  exact ⟨rfl, hm⟩

/-- Witness for C10: an inactive, expired offer whose usage limit (2)
is already exceeded (used 5 times) is still incremented to 6. -/
theorem claim10_witness :
    (usePromoCode [exhaustedOffer] "DEAD5").1 =
      .ok { exhaustedOffer with used_count := 6 } ∧
    exhaustedOffer.is_active = false ∧
    exhaustedOffer.usage_limit = some 2 ∧
    exhaustedOffer.used_count = 5 :=
  ⟨(claim10_use_promo [exhaustedOffer] "DEAD5" exhaustedOffer rfl).1, rfl, rfl, rfl⟩

/-- Claim C8: `calculateRoomPrice` is additive over adjacent
sub-ranges against the same persisted state: for an existing room type
and days a < b < c, the price over [a, c) is the sum of the prices
over [a, b) and [b, c). -/
theorem claim8_additive (roomTypes : List RoomType)
    (seasonal : List SeasonalPricing) (roomTypeId a b c : Nat) (rt : RoomType)
    (hrt : roomTypes.find? (fun r => decide (r.id = roomTypeId)) = some rt)
    (hab : a < b) (hbc : b < c) :
    ∃ x y, calculateRoomPrice roomTypes seasonal roomTypeId a b = .ok x ∧
      calculateRoomPrice roomTypes seasonal roomTypeId b c = .ok y ∧
      calculateRoomPrice roomTypes seasonal roomTypeId a c = .ok (x + y) := by
  refine ⟨_, _, calculateRoomPrice_eq_spec roomTypes seasonal roomTypeId a b rt hrt hab,
    calculateRoomPrice_eq_spec roomTypes seasonal roomTypeId b c rt hrt hbc, ?_⟩
  rw [calculateRoomPrice_eq_spec roomTypes seasonal roomTypeId a c rt hrt (by omega)]
  congr 1
  have h1 : c - a = (b - a) + (c - b) := by omega
  rw [h1, specPriceSum_add]
  have h2 : a + (b - a) = b := by omega
  rw [h2]

/-- Witness for C8 across a season boundary at day 12. -/
theorem claim8_witness :
    ∃ x y, calculateRoomPrice rtFix spBoundary 1 10 12 = .ok x ∧
      calculateRoomPrice rtFix spBoundary 1 12 14 = .ok y ∧
      calculateRoomPrice rtFix spBoundary 1 10 14 = .ok (x + y) :=
  claim8_additive rtFix spBoundary 1 10 12 14 ⟨1, 100, 2, true⟩ rfl (by omega) (by omega)
